import Mathlib

/-!
Shallow embedding of the voice-profile registry and per-user dialog state
machine of `src/bot.py` (class `Qwen3TTSManager` and the message handlers
`handle_text_input`, `handle_audio`, `button_callback`, `synthesize_and_send`).

Modelling conventions:
- Python floats are embedded as rationals (only comparisons and storage of
  the numeric settings matter; no rounding is exercised anywhere).
- `config['voices']` is an insertion-ordered dict; it is embedded as an
  association list with `dictGet` / `dictSet` / `dictDel` mirroring lookup,
  `d[k] = v` assignment and `del d[k]`.
- `context.user_data` is embedded as the record `UserData`: keys tested with
  `in` become `Option` fields, keys tested with `.get(...)` and set to
  `True`/`False` become `Bool` fields.
- External effects (Telegram replies, temp-file deletion, registry calls
  issued by a handler) are recorded in the `StepOut` result so that theorems
  can speak about them.
-/

namespace TgTts

/-- The rational 0.5, the lower bound of `speed` and `pitch`.  (Rationals are
built with the constructor rather than `/` so that concrete runs of the
embedding reduce inside `decide`.) -/
def half : ℚ := ⟨1, 2, by norm_num, Nat.coprime_one_left 2⟩

/-- The rational 0.1, the lower bound of `volume`. -/
def tenth : ℚ := ⟨1, 10, by norm_num, Nat.coprime_one_left 10⟩

/-- Python `str.strip()`: drop leading and trailing whitespace.  (Defined by
structural recursion; the core `String.trim` does not reduce in the kernel.) -/
def pyStrip (s : String) : String :=
  String.mk (((s.data.dropWhile Char.isWhitespace).reverse.dropWhile
    Char.isWhitespace).reverse)

/-- Python `str.lower()` for the ASCII range (the only case folding the
compared tokens need). -/
def pyLower (s : String) : String := String.mk (s.data.map Char.toLower)

/-- Python `str.startswith(pre)`. -/
def pyStartsWith (s pre : String) : Bool := s.data.take pre.data.length == pre.data

/-- Drop the first `n` characters (used to strip callback-data prefixes). -/
def pyDrop (s : String) (n : Nat) : String := String.mk (s.data.drop n)

/-- Worker for `pySplitUnderscore`. -/
def splitCharGo (c : Char) : List Char → List Char → List String
  | [], acc => [String.mk acc.reverse]
  | x :: xs, acc =>
    if x = c then String.mk acc.reverse :: splitCharGo c xs []
    else splitCharGo c xs (x :: acc)

/-- Python `data.split('_')` as used on callback data. -/
def pySplitUnderscore (s : String) : List String := splitCharGo '_' s.data []

/-- Python `'_'.join(parts)`. -/
def joinUnderscore : List String → String
  | [] => ""
  | [x] => x
  | x :: y :: xs => x ++ "_" ++ joinUnderscore (y :: xs)

/-- Source constant `DEFAULT_VOICE_NAME = "default"` (bot.py line 46). -/
def DEFAULT_VOICE_NAME : String := "default"

/-- Source constant `VOICE_LIBRARY_DIR = "voice_library"` (bot.py line 44). -/
def VOICE_LIBRARY_DIR : String := "voice_library"

/-- The `settings` record of a voice profile (bot.py lines 55-61). -/
structure VoiceSettings where
  speed : ℚ
  pitch : ℚ
  volume : ℚ
  emotion : String
  language : String
  deriving DecidableEq

/-- One entry of `config['voices']` (bot.py lines 53-65, 142-148, 163-171).
The created-voice dict literal omits the `cloned` / `cloned_from` /
`reference_text` keys; reads use `.get`, whose missing-key result is modelled
by `cloned = false`, `clonedFrom = none`, `referenceText = ""`. -/
structure VoiceProfile where
  model : String
  settings : VoiceSettings
  cloned : Bool
  clonedFrom : Option String
  referenceText : String
  createdAt : String
  description : String
  deriving DecidableEq

/-- The parts of `self.config` that the registry operations touch
(bot.py lines 49-72). -/
structure Config where
  defaultVoice : String
  voices : List (String × VoiceProfile)
  maxVoiceDuration : ℚ
  maxTextLength : Nat
  deriving DecidableEq

/-- Dict lookup `d.get(k)` / `k in d` on the ordered voices dict. -/
def dictGet (d : List (String × VoiceProfile)) (k : String) : Option VoiceProfile :=
  match d with
  | [] => none
  | (k2, v) :: rest => if k2 = k then some v else dictGet rest k

/-- Dict assignment `d[k] = v`: replaces an existing key in place, appends a
fresh key at the end (Python dicts preserve insertion order). -/
def dictSet (d : List (String × VoiceProfile)) (k : String) (v : VoiceProfile) :
    List (String × VoiceProfile) :=
  match d with
  | [] => [(k, v)]
  | (k2, v2) :: rest => if k2 = k then (k, v) :: rest else (k2, v2) :: dictSet rest k v

/-- Dict deletion `del d[k]`. -/
def dictDel (d : List (String × VoiceProfile)) (k : String) :
    List (String × VoiceProfile) :=
  match d with
  | [] => []
  | (k2, v) :: rest => if k2 = k then dictDel rest k else (k2, v) :: dictDel rest k

theorem dictGet_del (d : List (String × VoiceProfile)) (k m : String) :
    dictGet (dictDel d k) m = if m = k then none else dictGet d m := by
  induction d with
  | nil => simp [dictDel, dictGet]
  | cons hd tl ih =>
    obtain ⟨k2, v2⟩ := hd
    by_cases h2 : k2 = k
    · subst h2
      rw [show dictDel ((k2, v2) :: tl) k2 = dictDel tl k2 by simp [dictDel], ih]
      by_cases hm : m = k2
      · simp [hm]
      · have hk : ¬ k2 = m := fun h => hm h.symm
        simp [hm, dictGet, hk]
    · rw [show dictDel ((k2, v2) :: tl) k = (k2, v2) :: dictDel tl k by simp [dictDel, h2]]
      by_cases hm2 : k2 = m
      · subst hm2
        have hmk : ¬ k2 = k := h2
        simp [dictGet, hmk]
      · simp only [dictGet, if_neg hm2]
        exact ih

theorem dictGet_set (d : List (String × VoiceProfile)) (k : String) (v : VoiceProfile)
    (m : String) :
    dictGet (dictSet d k v) m = if m = k then some v else dictGet d m := by
  induction d with
  | nil =>
    by_cases hm : m = k
    · simp [dictSet, dictGet, hm]
    · have hk : ¬ k = m := fun h => hm h.symm
      simp [dictSet, dictGet, hm, hk]
  | cons hd tl ih =>
    obtain ⟨k2, v2⟩ := hd
    by_cases h2 : k2 = k
    · subst h2
      by_cases hm : m = k2
      · simp [dictSet, dictGet, hm]
      · have hk : ¬ k2 = m := fun h => hm h.symm
        simp [dictSet, dictGet, hm, hk]
    · by_cases hm : k2 = m
      · subst hm
        have hmk : ¬ k2 = k := h2
        simp [dictSet, dictGet, h2, hmk]
      · simp only [dictSet, if_neg h2, dictGet, if_neg hm]
        exact ih

/-- Merge argument for `update_voice_settings`: the partial dict of settings
keys passed by callers (`{param_type: value}`, `{'emotion': e}`,
`{'language': l}`). -/
structure PartialSettings where
  speed : Option ℚ
  pitch : Option ℚ
  volume : Option ℚ
  emotion : Option String
  language : Option String
  deriving DecidableEq

/-- Python `settings_dict.update(partial)` (bot.py line 208). -/
def mergeSettings (s : VoiceSettings) (p : PartialSettings) : VoiceSettings :=
  { speed := p.speed.getD s.speed
    pitch := p.pitch.getD s.pitch
    volume := p.volume.getD s.volume
    emotion := p.emotion.getD s.emotion
    language := p.language.getD s.language }

/-- Embeds `Qwen3TTSManager.create_voice` (bot.py lines 137-149).
The method returns `(False, msg)` on a name collision; otherwise it builds the
new profile from the profile literally named `default`
(`self.config['voices'][DEFAULT_VOICE_NAME]`), stores it and saves.
`none` models the uncaught `KeyError` raised when that profile is absent
(unreachable: the initial config contains it and `delete_voice` refuses to
remove it).  `model or ...` and `description or ...` follow Python
truthiness: `None` and the empty string both fall back to the default. -/
def create_voice (cfg : Config) (voice_name : String) (model : Option String)
    (settings : Option VoiceSettings) (description : String) (now : String) :
    Option ((Bool × String) × Config) :=
  if (dictGet cfg.voices voice_name).isSome then
    some ((false, "Голос с таким названием уже существует"), cfg)
  else
    (dictGet cfg.voices DEFAULT_VOICE_NAME).map (fun defProf =>
      let profile : VoiceProfile :=
        { model := match model with
            | some m => if m = "" then defProf.model else m
            | none => defProf.model
          settings := settings.getD defProf.settings
          cloned := false
          clonedFrom := none
          referenceText := ""
          createdAt := now
          description := if description = "" then
              "Пользовательский голос: " ++ voice_name
            else description }
      ((true, "Голос " ++ voice_name ++ " создан успешно"),
        { cfg with voices := dictSet cfg.voices voice_name profile }))

/-- In-memory config plus the durable store (`bot_config.json`) contents, for
stating atomicity of mutations with respect to `save_config`. -/
structure SysState where
  config : Config
  stored : Config
  deriving DecidableEq

/-- Embeds `Qwen3TTSManager.clone_voice` (bot.py lines 151-179) together with
its persistence step.  The whole body runs inside `try/except Exception`:
a raised `save_config` (modelled by `saveOk = false`) is caught and reported
as `(False, "Ошибка клонирования: ...")` AFTER `self.config['voices']` has
already been mutated.  A `KeyError` on a missing `default` profile is likewise
caught (`none`-branch).  File-system effects (makedirs, copy2) are assumed to
succeed; the durable sample reference is the copied path
`voice_library/<name>/reference_audio.wav`. -/
def clone_voice_save (st : SysState) (voice_name audio_path reference_text description now : String)
    (saveOk : Bool) : (Bool × String) × SysState :=
  if (dictGet st.config.voices voice_name).isSome ∧ voice_name ≠ DEFAULT_VOICE_NAME then
    ((false, "Голос с таким названием уже существует"), st)
  else
    match dictGet st.config.voices DEFAULT_VOICE_NAME with
    | none => ((false, "Ошибка клонирования"), st)
    | some defProf =>
      let cloned_audio_path := VOICE_LIBRARY_DIR ++ "/" ++ voice_name ++ "/reference_audio.wav"
      let profile : VoiceProfile :=
        { model := defProf.model
          settings := defProf.settings
          cloned := true
          clonedFrom := some cloned_audio_path
          referenceText := reference_text
          createdAt := now
          description := if description = "" then
              "Клонированный голос: " ++ voice_name
            else description }
      let cfg1 : Config :=
        { st.config with voices := dictSet st.config.voices voice_name profile }
      if saveOk then
        ((true, "Голос " ++ voice_name ++ " клонирован успешно"), ⟨cfg1, cfg1⟩)
      else
        ((false, "Ошибка клонирования"), ⟨cfg1, st.stored⟩)

/-- `clone_voice` on the normal path where `save_config` succeeds. -/
def clone_voice (cfg : Config) (voice_name audio_path reference_text description now : String) :
    (Bool × String) × Config :=
  let r := clone_voice_save ⟨cfg, cfg⟩ voice_name audio_path reference_text description now true
  (r.1, r.2.config)

/-- Embeds `Qwen3TTSManager.delete_voice` (bot.py lines 181-201): not-found
check first, then the guard on the literal name `default`, then removal of the
entry (and its on-disk directory) and the reset of `config['default_voice']`
to `default` when it pointed at the deleted name. -/
def delete_voice (cfg : Config) (voice_name : String) : (Bool × String) × Config :=
  if (dictGet cfg.voices voice_name).isNone then
    ((false, "Голос не найден"), cfg)
  else if voice_name = DEFAULT_VOICE_NAME then
    ((false, "Нельзя удалить голос по умолчанию"), cfg)
  else
    let voices1 := dictDel cfg.voices voice_name
    let dv := if cfg.defaultVoice = voice_name then DEFAULT_VOICE_NAME else cfg.defaultVoice
    ((true, "Голос " ++ voice_name ++ " удален"),
      { cfg with voices := voices1, defaultVoice := dv })

/-- Embeds `Qwen3TTSManager.update_voice_settings` (bot.py lines 203-210):
`settings_dict.update(partial)` on the named voice, no range validation. -/
def update_voice_settings (cfg : Config) (voice_name : String) (settings : PartialSettings) :
    (Bool × String) × Config :=
  match dictGet cfg.voices voice_name with
  | none => ((false, "Голос не найден"), cfg)
  | some prof =>
    let prof1 : VoiceProfile := { prof with settings := mergeSettings prof.settings settings }
    ((true, "Настройки обновлены"),
      { cfg with voices := dictSet cfg.voices voice_name prof1 })

/-- Embeds `Qwen3TTSManager.set_default_voice` (bot.py lines 212-219). -/
def set_default_voice (cfg : Config) (voice_name : String) : (Bool × String) × Config :=
  if (dictGet cfg.voices voice_name).isNone then
    ((false, "Голос не найден"), cfg)
  else
    ((true, "Голос " ++ voice_name ++ " установлен по умолчанию"),
      { cfg with defaultVoice := voice_name })

/-- One inbound Telegram message, reduced to the attributes the handlers read.
`asFloat` models Python `float(update.message.text)`: `none` when it raises
`ValueError`.  `hasAudio` models the presence of a voice / audio / audio
document attachment.  `probe` models `librosa.get_duration` on the downloaded
file: `none` when the probe itself raises (librosa unavailable or the file
unreadable). -/
structure Msg where
  text : String
  asFloat : Option ℚ
  hasAudio : Bool
  probe : Option ℚ
  deriving DecidableEq

/-- The per-user `context.user_data` flag bag exactly as bot.py uses it.
Keys tested with `in` are `Option` fields (`none` = key absent); keys read
with `.get(...)` and assigned `True` / `False` are `Bool` fields. -/
structure UserData where
  adjusting_param : Option (String × String)
  editing_description : Option String
  awaiting_voice_name : Bool
  new_voice_name : Option String
  awaiting_voice_description : Bool
  pending_text : Option String
  awaiting_voice_audio : Bool
  voice_audio_path : Option String
  awaiting_cloned_voice_name : Bool
  cloned_voice_name : Option String
  awaiting_cloned_voice_description : Bool
  cloning_voice : Option String
  deriving DecidableEq

/-- A fresh session: no flag set, no payload collected. -/
def emptyUserData : UserData :=
  ⟨none, none, false, none, false, none, false, none, false, none, false, none⟩

/-- A call a handler issues against the registry (for stating that an input
does or does not reach a given `Qwen3TTSManager` method). -/
inductive RegCall
  | updateSettings (voice : String) (s : PartialSettings)
  | createCall (name : String) (description : String)
  | cloneCall (name : String) (audioPath : String) (description : String)
  | deleteCall (name : String)
  | setDefault (name : String)
  | setDescription (name : String) (text : String)
  deriving DecidableEq

/-- Result of one handler run: the session and registry afterwards, the texts
of the replies sent, the registry calls issued, and whether the handler
deleted a temporary / buffered audio file (`os.remove`). -/
structure StepOut where
  ud : UserData
  cfg : Config
  replies : List String
  regCalls : List RegCall
  tempRemoved : Bool
  deriving DecidableEq

/-- The `{param_type: value}` dict built at bot.py line 880. -/
def numericPartial (param_type : String) (value : ℚ) : PartialSettings :=
  { speed := if param_type = "speed" then some value else none
    pitch := if param_type = "pitch" then some value else none
    volume := if param_type = "volume" then some value else none
    emotion := none
    language := none }

/-- Voice-name validation `re.match(r'^[a-zA-Z0-9_]{3,30}$', name)`
(bot.py lines 939, 1065): 3 to 30 characters, each an ASCII letter, digit or
underscore. -/
def validVoiceName (s : String) : Bool :=
  3 ≤ s.length && s.length ≤ 30 && s.data.all (fun c => c.isAlphanum || c = '_')

/-- The skip tokens recognised by the description steps (bot.py 967, 1092). -/
def skipTokens : List String := ["пропустить", "skip", "-"]

/-- Branch of `handle_text_input` for `'adjusting_param' in user_data`
(bot.py lines 859-914).  Control flow: an unparsable number (`ValueError`)
or an out-of-range value or an unknown emotion replies and returns with the
`adjusting_param` key still present; otherwise `update_voice_settings` is
called and `del user_data['adjusting_param']` at line 909 runs (also when the
update itself reported failure, and also for a `param_type` that matches
neither branch, e.g. `language`). -/
def adjustingParamBranch (cfg : Config) (ud : UserData) (ev : Msg)
    (param_type voice_name : String) : StepOut :=
  if param_type = "speed" ∨ param_type = "pitch" ∨ param_type = "volume" then
    match ev.asFloat with
    | none =>
      ⟨ud, cfg, ["❌ Введите корректное число!"], [], false⟩
    | some value =>
      if param_type = "speed" ∧ (value < half ∨ 2 < value) then
        ⟨ud, cfg, ["❌ Скорость должна быть от 0.5 до 2.0"], [], false⟩
      else if param_type = "pitch" ∧ (value < half ∨ 2 < value) then
        ⟨ud, cfg, ["❌ Тон должен быть от 0.5 до 2.0"], [], false⟩
      else if param_type = "volume" ∧ (value < tenth ∨ 2 < value) then
        ⟨ud, cfg, ["❌ Громкость должна быть от 0.1 до 2.0"], [], false⟩
      else
        let r := update_voice_settings cfg voice_name (numericPartial param_type value)
        ⟨{ ud with adjusting_param := none }, r.2,
          [if r.1.1 then "✅ установлена" else "❌ " ++ r.1.2],
          [RegCall.updateSettings voice_name (numericPartial param_type value)], false⟩
  else if param_type = "emotion" then
    let emotion := pyLower ev.text
    if (["neutral", "happy", "sad", "angry", "excited"].contains emotion) = false then
      ⟨ud, cfg, ["❌ Неверная эмоция!"], [], false⟩
    else
      let r := update_voice_settings cfg voice_name ⟨none, none, none, some emotion, none⟩
      ⟨{ ud with adjusting_param := none }, r.2,
        [if r.1.1 then "✅ Эмоция установлена" else "❌ " ++ r.1.2],
        [RegCall.updateSettings voice_name ⟨none, none, none, some emotion, none⟩], false⟩
  else
    ⟨{ ud with adjusting_param := none }, cfg, [], [], false⟩

/-- Branch of `handle_text_input` for `'editing_description' in user_data`
(bot.py lines 916-934): reject descriptions over 200 characters with the key
kept, otherwise write the description through the registry and delete the
key.  A vanished voice would raise an uncaught `TypeError` at line 925 before
any mutation (modelled as no state change, no reply). -/
def editingDescriptionBranch (cfg : Config) (ud : UserData) (ev : Msg)
    (voice_name : String) : StepOut :=
  let description := pyStrip ev.text
  if 200 < description.length then
    ⟨ud, cfg, ["❌ Описание слишком длинное! Максимум 200 символов."], [], false⟩
  else
    match dictGet cfg.voices voice_name with
    | none => ⟨ud, cfg, [], [], false⟩
    | some prof =>
      let prof1 : VoiceProfile := { prof with description := description }
      ⟨{ ud with editing_description := none },
        { cfg with voices := dictSet cfg.voices voice_name prof1 },
        ["✅ Описание обновлено"],
        [RegCall.setDescription voice_name description], false⟩

/-- Embeds `synthesize_text_handler` (bot.py lines 539-557): length bounds
`2 ≤ len ≤ max_text_length`, then the text is stored as `pending_text`. -/
def synthesize_text_handler (cfg : Config) (ud : UserData) (ev : Msg) : StepOut :=
  let text := pyStrip ev.text
  if cfg.maxTextLength < text.length then
    ⟨ud, cfg, ["❌ Текст слишком длинный!"], [], false⟩
  else if text.length < 2 then
    ⟨ud, cfg, ["❌ Текст слишком короткий! Минимум 2 символа."], [], false⟩
  else
    ⟨{ ud with pending_text := some text }, cfg,
      ["🎤 Выберите голос для синтеза"], [], false⟩

/-- Embeds `handle_text_input` (bot.py lines 856-991): the source tests the
session flags in sequence, each branch ending in `return`, which is the
dispatch chain below. -/
def handle_text_input (cfg : Config) (ud : UserData) (ev : Msg) (now : String) : StepOut :=
  match ud.adjusting_param with
  | some pd => adjustingParamBranch cfg ud ev pd.1 pd.2
  | none =>
  match ud.editing_description with
  | some voice_name => editingDescriptionBranch cfg ud ev voice_name
  | none =>
  if ud.awaiting_voice_name then
    -- bot.py 936-961: validate the new name, then move to the description step
    let voice_name := pyStrip ev.text
    if validVoiceName voice_name = false then
      ⟨ud, cfg, ["❌ Неверный формат названия!"], [], false⟩
    else if (dictGet cfg.voices voice_name).isSome then
      -- source: `voice_name in tts_manager.get_voice_list()`, i.e. key presence
      ⟨ud, cfg, ["❌ Голос с таким названием уже существует!"], [], false⟩
    else
      ⟨{ ud with
          new_voice_name := some voice_name
          awaiting_voice_name := false
          awaiting_voice_description := true }, cfg,
        ["📝 Введите описание для голоса"], [], false⟩
  else if ud.awaiting_voice_description then
    -- bot.py 963-982: substitute skip tokens, create the voice, clear the step
    match ud.new_voice_name with
    | none => ⟨ud, cfg, [], [], false⟩  -- uncaught KeyError, unreachable
    | some voice_name =>
      let description0 := pyStrip ev.text
      let description :=
        if skipTokens.contains (pyLower description0) then
          "Пользовательский голос: " ++ voice_name
        else description0
      match create_voice cfg voice_name none none description now with
      | none => ⟨ud, cfg, [], [], false⟩  -- uncaught KeyError, unreachable
      | some r =>
        ⟨{ ud with awaiting_voice_description := false, new_voice_name := none }, r.2,
          [if r.1.1 then "✅ " ++ r.1.2 else "❌ " ++ r.1.2],
          [RegCall.createCall voice_name description], false⟩
  else
  match ud.pending_text with
  | some _ => synthesize_text_handler cfg ud ev
  | none =>
    ⟨ud, cfg, ["💬 Хотите озвучить этот текст?"], [], false⟩

/-- Embeds `handle_audio` (bot.py lines 993-1188).  `temp_path` is the path
the attachment is downloaded to (the download itself is assumed to succeed;
a failed download would take the same outer `except` path as the probe bug
below).

The `awaiting_voice_audio` branch (996-1060) is the audio-intake step:
- with a probe result, over-long (`duration > max_voice_duration`) and
  too-short (`duration < 1.0`) samples are rejected, the temp file removed,
  before any session or registry mutation;
- when the probe raises, line 1040 only logs a warning and control continues:
  the session fields are set (1042-1044), but the confirmation message at
  line 1047 interpolates the local variable `duration`, which was never
  assigned on this path, raising `UnboundLocalError`; the outer `except` at
  1052-1058 then removes the temp file and replies with a fatal error,
  leaving the already-advanced session fields in place.

The `awaiting_cloned_voice_name` / `awaiting_cloned_voice_description`
branches (1062-1126) read `update.message.text` and mirror the creation-flow
name and description steps; the `cloning_voice` branch (1128-1186) is the
clone-this-voice shortcut whose duration probe failure is a bare
`except: pass` (true fail-open, and only the upper duration bound checked). -/
def handle_audio (cfg : Config) (ud : UserData) (ev : Msg) (temp_path : String)
    (now : String) : StepOut :=
  if ud.awaiting_voice_audio then
    if ev.hasAudio = false then
      ⟨ud, cfg, ["❌ Не удалось получить аудио файл!"], [], false⟩
    else
      match ev.probe with
      | some duration =>
        if cfg.maxVoiceDuration < duration then
          ⟨ud, cfg, ["🔄 Загружаю аудио файл...", "❌ Аудио слишком длинное!"], [], true⟩
        else if duration < 1 then
          ⟨ud, cfg, ["🔄 Загружаю аудио файл...", "❌ Аудио слишком короткое!"], [], true⟩
        else
          ⟨{ ud with
              voice_audio_path := some temp_path
              awaiting_voice_audio := false
              awaiting_cloned_voice_name := true }, cfg,
            ["🔄 Загружаю аудио файл...", "✅ Аудио получено!"], [], false⟩
      | none =>
        -- probe raised: warning only, session advanced, then the
        -- UnboundLocalError at line 1047 diverts to the outer except
        ⟨{ ud with
            voice_audio_path := some temp_path
            awaiting_voice_audio := false
            awaiting_cloned_voice_name := true }, cfg,
          ["🔄 Загружаю аудио файл...", "❌ Произошла ошибка при обработке аудио!"],
          [], true⟩
  else if ud.awaiting_cloned_voice_name then
    let voice_name := pyStrip ev.text
    if validVoiceName voice_name = false then
      ⟨ud, cfg, ["❌ Неверный формат названия!"], [], false⟩
    else if (dictGet cfg.voices voice_name).isSome then
      ⟨ud, cfg, ["❌ Голос с таким названием уже существует!"], [], false⟩
    else
      ⟨{ ud with
          cloned_voice_name := some voice_name
          awaiting_cloned_voice_name := false
          awaiting_cloned_voice_description := true }, cfg,
        ["📝 Введите описание для клонированного голоса"], [], false⟩
  else if ud.awaiting_cloned_voice_description then
    match ud.cloned_voice_name with
    | none => ⟨ud, cfg, [], [], false⟩  -- uncaught KeyError, unreachable
    | some voice_name =>
      let description0 := pyStrip ev.text
      let description :=
        if skipTokens.contains (pyLower description0) then
          "Клонированный голос: " ++ voice_name
        else description0
      match ud.voice_audio_path with
      | none => ⟨ud, cfg, ["❌ Ошибка: аудио файл не найден!"], [], false⟩
      | some audio_path =>
        let r := clone_voice cfg voice_name audio_path "" description now
        -- on success the buffered sample is removed (1106-1107); the step
        -- flags and payload are cleared either way (1120-1124)
        ⟨{ ud with
            awaiting_cloned_voice_description := false
            cloned_voice_name := none
            voice_audio_path := none }, r.2,
          ["🔄 Начинаю клонирование голоса...",
            if r.1.1 then "✅ " ++ r.1.2 else "❌ " ++ r.1.2],
          [RegCall.cloneCall voice_name audio_path description], r.1.1⟩
  else
  match ud.cloning_voice with
  | some voice_name =>
    if ev.hasAudio = false then
      ⟨ud, cfg, ["❌ Не удалось получить аудио файл!"], [], false⟩
    else
      let rejected : Bool :=
        match ev.probe with
        | some duration => decide (cfg.maxVoiceDuration < duration)
        | none => false  -- bare `except: pass` (1157-1158): genuine fail-open
      if rejected then
        ⟨ud, cfg, ["❌ Аудио слишком длинное!"], [], true⟩
      else
        let r := clone_voice cfg voice_name temp_path "" "" now
        ⟨{ ud with cloning_voice := none }, r.2,
          ["🔄 Начинаю клонирование голоса...",
            if r.1.1 then "✅ " ++ r.1.2 else "❌ " ++ r.1.2],
          [RegCall.cloneCall voice_name temp_path ""], true⟩
  | none =>
    ⟨ud, cfg, ["⚠️ Отправьте аудио только при клонировании голоса!"], [], false⟩

/-- Embeds `button_callback` (bot.py lines 644-853): dispatch over the
callback data string, in source order.  Branches that only redraw menus leave
the session and registry untouched; `adjust_` / `clone_this_` / `edit_desc_`
/ `create_new_voice` set session flags; `select_voice_` / `set_emotion_` /
`set_lang_` / `delete_voice_` call the registry. -/
def button_callback (cfg : Config) (ud : UserData) (data : String) : StepOut :=
  if pyStartsWith data "voices_page_" then
    ⟨ud, cfg, ["🎭 Доступные голоса:"], [], false⟩
  else if pyStartsWith data "select_voice_" then
    let voice_name := pyDrop data "select_voice_".length
    let r := set_default_voice cfg voice_name
    ⟨ud, r.2, [if r.1.1 then "✅ Голос выбран как активный!" else r.1.2],
      [RegCall.setDefault voice_name], false⟩
  else if pyStartsWith data "voice_menu_" then
    ⟨ud, cfg, ["🎭 Настройки голоса"], [], false⟩
  else if pyStartsWith data "settings_" then
    ⟨ud, cfg, ["🎚️ Настройте параметры голоса"], [], false⟩
  else if pyStartsWith data "adjust_" then
    let parts := pySplitUnderscore data
    let param_type := parts.getD 1 ""
    let voice_name := joinUnderscore (parts.drop 2)
    ⟨{ ud with adjusting_param := some (param_type, voice_name) }, cfg,
      ["Введите новое значение"], [], false⟩
  else if pyStartsWith data "set_emotion_" then
    let parts := pySplitUnderscore data
    let voice_name := parts.getD 2 ""
    let emotion := parts.getD 3 ""
    let r := update_voice_settings cfg voice_name ⟨none, none, none, some emotion, none⟩
    ⟨ud, r.2, [if r.1.1 then "✅ Эмоция установлена" else r.1.2],
      [RegCall.updateSettings voice_name ⟨none, none, none, some emotion, none⟩], false⟩
  else if pyStartsWith data "set_lang_" then
    let parts := pySplitUnderscore data
    let voice_name := parts.getD 2 ""
    let language := parts.getD 3 ""
    let r := update_voice_settings cfg voice_name ⟨none, none, none, none, some language⟩
    ⟨ud, r.2, [if r.1.1 then "✅ Язык установлен" else r.1.2],
      [RegCall.updateSettings voice_name ⟨none, none, none, none, some language⟩], false⟩
  else if pyStartsWith data "save_settings_" then
    ⟨ud, cfg, ["✅ Настройки сохранены!"], [], false⟩
  else if pyStartsWith data "clone_this_" then
    ⟨{ ud with cloning_voice := some (pyDrop data "clone_this_".length) }, cfg,
      ["🎤 Отправьте аудио файл для клонирования голоса"], [], false⟩
  else if pyStartsWith data "edit_desc_" then
    ⟨{ ud with editing_description := some (pyDrop data "edit_desc_".length) }, cfg,
      ["📝 Введите новое описание для голоса"], [], false⟩
  else if pyStartsWith data "delete_confirm_" then
    let voice_name := pyDrop data "delete_confirm_".length
    if voice_name = DEFAULT_VOICE_NAME then
      ⟨ud, cfg, ["❌ Нельзя удалить голос по умолчанию!"], [], false⟩
    else
      ⟨ud, cfg, ["⚠️ Вы уверены?"], [], false⟩
  else if pyStartsWith data "delete_voice_" then
    let voice_name := pyDrop data "delete_voice_".length
    let r := delete_voice cfg voice_name
    ⟨ud, r.2, [if r.1.1 then "✅ " ++ r.1.2 else r.1.2],
      [RegCall.deleteCall voice_name], false⟩
  else if data = "create_new_voice" then
    ⟨{ ud with awaiting_voice_name := true }, cfg,
      ["➕ Введите название нового голоса"], [], false⟩
  else if data = "back_to_main" then
    -- bot.py 837-842: only the displayed message is replaced with the main
    -- menu; `context.user_data` is not touched and no file is removed
    ⟨ud, cfg, ["🏠 Главное меню:"], [], false⟩
  else if data = "back_to_voices" then
    ⟨ud, cfg, ["🎭 Доступные голоса:"], [], false⟩
  else
    ⟨ud, cfg, [], [], false⟩

/-- Embeds `synthesize_and_send` (bot.py lines 1191-1228).  `synthResult`
is the return of `Qwen3TTSManager.synthesize` (`None` on failure, otherwise
the output path of an existing file), `fileSize` the synthesized file size.
On `None`, the handler replies with an error and returns at line 1204,
reaching neither `os.remove` nor `del user_data['pending_text']`; on the
send paths, the output file is removed and `pending_text` is deleted. -/
def synthesize_and_send (cfg : Config) (ud : UserData) (voice_name : String)
    (synthResult : Option String) (fileSize : Nat) : StepOut :=
  match ud.pending_text with
  | none => ⟨ud, cfg, [], [], false⟩
  | some _text =>
    match synthResult with
    | none =>
      ⟨ud, cfg, ["🔄 Генерирую аудио голосом " ++ voice_name,
        "❌ Ошибка генерации аудио!"], [], false⟩
    | some _audio_path =>
      if 50 * 1024 * 1024 < fileSize then
        ⟨{ ud with pending_text := none }, cfg,
          ["🔄 Генерирую аудио голосом " ++ voice_name,
            "❌ Аудио файл слишком большой для отправки через Telegram!"], [], true⟩
      else
        ⟨{ ud with pending_text := none }, cfg,
          ["🔄 Генерирую аудио голосом " ++ voice_name,
            "🎤 Озвучено голосом: " ++ voice_name], [], true⟩

/-! Concrete fixtures for counterexamples and witnesses. -/

/-- The settings of the stock `default` profile (bot.py lines 55-61). -/
def sampleSettings : VoiceSettings := ⟨1, 1, 1, "neutral", "ru"⟩

/-- Distinct settings for a second profile. -/
def otherSettings : VoiceSettings := ⟨2, 1, 1, "happy", "en"⟩

/-- The stock `default` profile (bot.py lines 53-65). -/
def defaultProfile : VoiceProfile :=
  ⟨"Qwen/Qwen3-TTS-12Hz-1.7B-Base", sampleSettings, false, none, "",
    "2024-01-01 00:00:00", "Голос по умолчанию"⟩

/-- A second, user-created profile with a different model and settings. -/
def aliceProfile : VoiceProfile :=
  ⟨"other-model", otherSettings, false, none, "", "2024-01-02 00:00:00", "desc"⟩

/-- A registry holding `default` and `alice`, whose default POINTER is
`alice` (reachable via `set_default_voice "alice"`). -/
def cfgA : Config :=
  ⟨"alice", [(DEFAULT_VOICE_NAME, defaultProfile), ("alice", aliceProfile)], 30, 1000⟩

/-- `cfgA` with the durable store in sync. -/
def stA : SysState := ⟨cfgA, cfgA⟩

/-- A session mid-flow with partially collected payload of several flows. -/
def udFull : UserData :=
  ⟨some ("speed", "alice"), none, false, none, false, some "привет", false,
    some "temp_audio/voice_1.ogg", false, none, false, none⟩

/-- A session in the numeric-edit step for `speed` of `alice`. -/
def udAdj : UserData := { emptyUserData with adjusting_param := some ("speed", "alice") }

/-- A session in the description-edit step for `alice`. -/
def udEdit : UserData := { emptyUserData with editing_description := some "alice" }

/-- A session in the creation-flow description step for the new name `abc`. -/
def udDesc : UserData :=
  { emptyUserData with awaiting_voice_description := true, new_voice_name := some "abc" }

/-- A session in the clone-flow audio-intake step. -/
def udAudio : UserData := { emptyUserData with awaiting_voice_audio := true }

/-- The message `-` (a skip token; `float` raises on it). -/
def msgDash : Msg := ⟨"-", none, false, none⟩

/-- A numeric message `1` for the numeric-edit step. -/
def msgOne : Msg := ⟨"1", some 1, false, none⟩

/-- A numeric message `3` (out of range for every numeric parameter). -/
def msgThree : Msg := ⟨"3", some 3, false, none⟩

/-- An audio message whose probed duration is 45 seconds. -/
def msgLong : Msg := ⟨"", none, true, some 45⟩

/-- An audio message on which the duration probe raises. -/
def msgNoProbe : Msg := ⟨"", none, true, none⟩

/-- The numeric parameter selector of the settings record, for stating which
field a numeric edit changes. -/
def settingOf (param_type : String) (s : VoiceSettings) : ℚ :=
  if param_type = "speed" then s.speed
  else if param_type = "pitch" then s.pitch
  else s.volume

/-- Lower bound of a numeric parameter (bot.py 868-877): 0.1 for `volume`,
0.5 for `speed` and `pitch`; the upper bound is 2.0 for all three. -/
def paramLo (param_type : String) : ℚ :=
  if param_type = "volume" then tenth else half

theorem append_ne_empty_left (p q : String) (hp : p ≠ "") : p ++ q ≠ "" := by
  intro h
  apply hp
  have hd := congrArg String.data h
  rw [String.data_append] at hd
  apply String.ext
  exact (List.append_eq_nil.mp hd).1

/-- C1 counterexample: with the default pointer set to `alice` (a reachable
state via `set_default_voice`), `delete_voice "alice"` — a delete of the name
stored in the registry's default pointer — SUCCEEDS and changes the registry,
where the claim requires it to fail with `IsDefaultVoice` and leave the
registry unchanged. -/
theorem delete_current_default_cex :
    cfgA.defaultVoice = "alice" ∧
    (delete_voice cfgA "alice").1.1 = true ∧
    (delete_voice cfgA "alice").2 ≠ cfgA := by decide

/-- C1 (amended): `delete_voice name` fails with `NotFound` when `name` is
absent; fails with `IsDefaultVoice` exactly when `name` is the literal name
`default`; otherwise it succeeds, removes exactly that entry, and resets the
default pointer to `default` when it pointed at the deleted name (deleting
the name the default pointer holds is allowed whenever that name is not
`default` itself). -/
theorem delete_voice_spec (cfg : Config) (name : String) :
    (dictGet cfg.voices name = none →
      delete_voice cfg name = ((false, "Голос не найден"), cfg)) ∧
    ((dictGet cfg.voices name).isSome → name = DEFAULT_VOICE_NAME →
      delete_voice cfg name = ((false, "Нельзя удалить голос по умолчанию"), cfg)) ∧
    ((dictGet cfg.voices name).isSome → name ≠ DEFAULT_VOICE_NAME →
      (delete_voice cfg name).1.1 = true ∧
      dictGet (delete_voice cfg name).2.voices name = none ∧
      (∀ m, m ≠ name → dictGet (delete_voice cfg name).2.voices m = dictGet cfg.voices m) ∧
      (delete_voice cfg name).2.defaultVoice =
        (if cfg.defaultVoice = name then DEFAULT_VOICE_NAME else cfg.defaultVoice)) := by
  refine ⟨?_, ?_, ?_⟩
  · intro h
    simp [delete_voice, h]
  · intro h1 h2
    subst h2
    obtain ⟨v, hv⟩ := Option.isSome_iff_exists.mp h1
    simp [delete_voice, hv]
  · intro h1 h2
    obtain ⟨v, hv⟩ := Option.isSome_iff_exists.mp h1
    refine ⟨?_, ?_, ?_, ?_⟩
    · simp [delete_voice, hv, h2]
    · simp [delete_voice, hv, h2, dictGet_del]
    · intro m hm
      simp [delete_voice, hv, h2, dictGet_del, hm]
    · simp [delete_voice, hv, h2]

/-- C1 witness: instantiating the success case at `cfgA` and `alice`. -/
theorem delete_voice_spec_witness : (delete_voice cfgA "alice").1.1 = true :=
  ((delete_voice_spec cfgA "alice").2.2 (by decide) (by decide)).1

/-- C10: after any successful `delete_voice`, the default pointer still
references an existing profile, provided the profile named `default` exists
and the pointer referenced an existing profile beforehand.  If the deleted
name was the pointer, the pointer is reset to `default`, which a successful
delete can never have removed. -/
theorem delete_preserves_default_pointer (cfg : Config) (name : String)
    (hdef : (dictGet cfg.voices DEFAULT_VOICE_NAME).isSome)
    (hptr : (dictGet cfg.voices cfg.defaultVoice).isSome)
    (hok : (delete_voice cfg name).1.1 = true) :
    (dictGet (delete_voice cfg name).2.voices (delete_voice cfg name).2.defaultVoice).isSome := by
  by_cases h1 : dictGet cfg.voices name = none
  · simp [delete_voice, h1] at hok
  · obtain ⟨v, hv⟩ := Option.ne_none_iff_exists'.mp h1
    by_cases h2 : name = DEFAULT_VOICE_NAME
    · subst h2
      simp [delete_voice, hv] at hok
    · by_cases h3 : cfg.defaultVoice = name
      · have h4 : ¬ DEFAULT_VOICE_NAME = name := fun h => h2 h.symm
        simp [delete_voice, hv, h2, h3, dictGet_del, h4, hdef]
      · simp [delete_voice, hv, h2, h3, dictGet_del, hptr]

/-- C10 witness: deleting `alice` from `cfgA` (whose pointer is `alice`)
leaves the pointer on an existing profile. -/
theorem delete_preserves_default_pointer_witness :
    (dictGet (delete_voice cfgA "alice").2.voices
      (delete_voice cfgA "alice").2.defaultVoice).isSome :=
  delete_preserves_default_pointer cfgA "alice" (by decide) (by decide) (by decide)

/-- C4 counterexample: a session holding pending text `привет` still holds it
after a failed synthesis (`synthesize` returned `None`), where the claim
requires the failure to clear `pending_text`. -/
theorem synth_failure_pending_cex :
    udFull.pending_text = some "привет" ∧
    (synthesize_and_send cfgA udFull "alice" none 0).ud.pending_text = some "привет" := by
  decide

/-- C4 (amended): when `synthesize` fails, `synthesize_and_send` returns at
line 1204 without touching the session or the registry, so the pending text
REMAINS in the session; `pending_text` is deleted only on the send paths
reached after a successful synthesis. -/
theorem synth_failure_keeps_pending (cfg : Config) (ud : UserData)
    (vn path t : String) (sz : Nat) (hp : ud.pending_text = some t) :
    ((synthesize_and_send cfg ud vn none sz).ud = ud ∧
     (synthesize_and_send cfg ud vn none sz).cfg = cfg ∧
     (synthesize_and_send cfg ud vn none sz).ud.pending_text = some t) ∧
    (synthesize_and_send cfg ud vn (some path) sz).ud.pending_text = none := by
  constructor
  · simp [synthesize_and_send, hp]
  · by_cases hs : 50 * 1024 * 1024 < sz <;> simp [synthesize_and_send, hp, hs]

/-- C4 witness: instantiating at `cfgA`, `udFull` (pending text `привет`). -/
theorem synth_failure_keeps_pending_witness :
    (synthesize_and_send cfgA udFull "alice" none 0).ud = udFull :=
  (synth_failure_keeps_pending cfgA udFull "alice" "out.wav" "привет" 0 (by decide)).1.1

/-- C8: in the audio-intake step, a probed duration of 45s against
`max_voice_duration = 30` is rejected before any session or registry mutation
and the temp file is removed — but when the probe itself fails to run, the
flow is NOT fail-open: the confirmation message at bot.py line 1047 reads the
never-assigned local `duration`, raising `UnboundLocalError`; the outer
handler then removes the sample and reports a fatal processing error, with
the session flags already advanced to the name step. -/
theorem audio_probe_paths :
    ((handle_audio cfgA udAudio msgLong "temp_audio/voice_1.ogg" "t").cfg = cfgA ∧
     (handle_audio cfgA udAudio msgLong "temp_audio/voice_1.ogg" "t").ud = udAudio ∧
     (handle_audio cfgA udAudio msgLong "temp_audio/voice_1.ogg" "t").regCalls = [] ∧
     (handle_audio cfgA udAudio msgLong "temp_audio/voice_1.ogg" "t").tempRemoved = true) ∧
    ((handle_audio cfgA udAudio msgNoProbe "temp_audio/voice_1.ogg" "t").replies =
       ["🔄 Загружаю аудио файл...", "❌ Произошла ошибка при обработке аудио!"] ∧
     (handle_audio cfgA udAudio msgNoProbe "temp_audio/voice_1.ogg" "t").tempRemoved = true ∧
     (handle_audio cfgA udAudio msgNoProbe "temp_audio/voice_1.ogg" "t").ud.awaiting_cloned_voice_name
       = true ∧
     (handle_audio cfgA udAudio msgNoProbe "temp_audio/voice_1.ogg" "t").cfg = cfgA) := by
  decide

/-- C9 counterexample: a session full of partially-collected payload (pending
text, numeric-edit target, buffered audio sample) is completely unchanged by
the `back_to_main` signal — nothing is cleared and the buffered sample file
is not deleted, where the claim requires the session to be cleared to Idle
and the payload discarded. -/
theorem back_to_main_payload_cex :
    (button_callback cfgA udFull "back_to_main").ud = udFull ∧
    udFull ≠ emptyUserData ∧
    udFull.pending_text = some "привет" ∧
    udFull.voice_audio_path = some "temp_audio/voice_1.ogg" ∧
    (button_callback cfgA udFull "back_to_main").tempRemoved = false := by
  decide

/-- C9 (amended): the `back_to_main` branch of `button_callback` only redraws
the main menu: for every session and registry it leaves both unchanged,
issues no registry call and deletes no buffered file.  Partially-collected
payload survives the signal. -/
theorem back_to_main_no_clear (cfg : Config) (ud : UserData) :
    button_callback cfg ud "back_to_main" = ⟨ud, cfg, ["🏠 Главное меню:"], [], false⟩ := rfl

/-- C2 counterexample: starting from a state whose durable store is in sync,
a clone of the fresh name `bobby` whose persistence step fails returns a
failure result to the caller while the in-memory registry HAS been mutated —
contradicting "either both succeed or the in-memory state is left unchanged
and the caller receives a failure". -/
theorem clone_save_atomicity_cex :
    (clone_voice_save stA "bobby" "a.ogg" "" "" "t" false).1.1 = false ∧
    (clone_voice_save stA "bobby" "a.ogg" "" "" "t" false).2.config ≠ stA.config ∧
    (dictGet (clone_voice_save stA "bobby" "a.ogg" "" "" "t" false).2.config.voices
      "bobby").isSome := by
  decide

/-- C2 (amended): mutating operations write the in-memory mutation BEFORE
persisting, with no rollback.  For `clone_voice` (whose body runs inside
`try/except`): when the durable write fails, the caller receives a failure
result, the in-memory registry retains the new entry, and the durable store
is unchanged; when the write succeeds, memory and store agree. -/
theorem clone_voice_mutates_before_save (st : SysState)
    (name path ref desc now : String) (d : VoiceProfile)
    (hguard : ¬((dictGet st.config.voices name).isSome ∧ name ≠ DEFAULT_VOICE_NAME))
    (hd : dictGet st.config.voices DEFAULT_VOICE_NAME = some d) :
    ((clone_voice_save st name path ref desc now false).1.1 = false ∧
     (dictGet (clone_voice_save st name path ref desc now false).2.config.voices name).isSome ∧
     (clone_voice_save st name path ref desc now false).2.stored = st.stored) ∧
    (clone_voice_save st name path ref desc now true).2.stored =
      (clone_voice_save st name path ref desc now true).2.config := by
  constructor
  · refine ⟨?_, ?_, ?_⟩ <;> simp [clone_voice_save, hguard, hd, dictGet_set]
  · simp [clone_voice_save, hguard, hd]

/-- C2 witness: instantiating the failed-persistence case at `stA`, `bobby`. -/
theorem clone_voice_mutates_before_save_witness :
    (clone_voice_save stA "bobby" "a.ogg" "" "" "t" false).1.1 = false :=
  (clone_voice_mutates_before_save stA "bobby" "a.ogg" "" "" "t" defaultProfile
    (by decide) (by decide)).1.1

/-- C5 counterexample: with the registry's default pointer on `alice` (model
`other-model`), creating `bobby` without a model defaults its model from the
profile literally named `default` (`Qwen/Qwen3-TTS-12Hz-1.7B-Base`), NOT from
the profile the default pointer references. -/
theorem create_defaults_pointer_cex :
    cfgA.defaultVoice = "alice" ∧
    (dictGet cfgA.voices "alice").map VoiceProfile.model = some "other-model" ∧
    ((create_voice cfgA "bobby" none none "" "t").map
       (fun r => (dictGet r.2.voices "bobby").map VoiceProfile.model)) =
      some (some "Qwen/Qwen3-TTS-12Hz-1.7B-Base") ∧
    ("Qwen/Qwen3-TTS-12Hz-1.7B-Base" : String) ≠ "other-model" := by
  decide

/-- C5 (amended): `create_voice` fails with `AlreadyExists` when the name is
present; otherwise it succeeds and defaults `model` / `settings` (following
Python `or`-truthiness, so `None` and empty fall back) from the values of the
profile LITERALLY NAMED `default` — not from the profile the registry's
default pointer references — with the settings record copied by value, so a
later settings update of the new voice leaves the `default` profile intact;
all other entries and the default pointer are untouched. -/
theorem create_voice_spec (cfg : Config) (name : String) (model : Option String)
    (settings : Option VoiceSettings) (desc now : String) (d : VoiceProfile)
    (hd : dictGet cfg.voices DEFAULT_VOICE_NAME = some d) :
    ((dictGet cfg.voices name).isSome →
      create_voice cfg name model settings desc now =
        some ((false, "Голос с таким названием уже существует"), cfg)) ∧
    (dictGet cfg.voices name = none →
      ((create_voice cfg name model settings desc now).map (fun r => r.1.1) = some true ∧
       (create_voice cfg name model settings desc now).map
         (fun r => (dictGet r.2.voices name).map VoiceProfile.model) =
         some (some (match model with
           | some m => if m = "" then d.model else m
           | none => d.model)) ∧
       (create_voice cfg name model settings desc now).map
         (fun r => (dictGet r.2.voices name).map VoiceProfile.settings) =
         some (some (settings.getD d.settings)) ∧
       (∀ m2, m2 ≠ name →
         (create_voice cfg name model settings desc now).map
           (fun r => dictGet r.2.voices m2) = some (dictGet cfg.voices m2)) ∧
       (create_voice cfg name model settings desc now).map (fun r => r.2.defaultVoice) =
         some cfg.defaultVoice ∧
       (∀ p, (create_voice cfg name model settings desc now).map
           (fun r => dictGet (update_voice_settings r.2 name p).2.voices DEFAULT_VOICE_NAME) =
           some (some d)))) := by
  constructor
  · intro h1
    obtain ⟨v, hv⟩ := Option.isSome_iff_exists.mp h1
    simp [create_voice, hv]
  · intro hfresh
    have hne : ¬ DEFAULT_VOICE_NAME = name := by
      intro h
      rw [h, hfresh] at hd
      exact Option.noConfusion hd
    refine ⟨?_, ?_, ?_, ?_, ?_, ?_⟩
    · simp [create_voice, hfresh, hd]
    · simp [create_voice, hfresh, hd, dictGet_set]
    · simp [create_voice, hfresh, hd, dictGet_set]
    · intro m2 hm2
      simp [create_voice, hfresh, hd, dictGet_set, hm2]
    · simp [create_voice, hfresh, hd]
    · intro p
      simp [create_voice, hfresh, hd, update_voice_settings, dictGet_set, hne]

/-- C5 witness: instantiating the success case at `cfgA`, `bobby`. -/
theorem create_voice_spec_witness :
    (create_voice cfgA "bobby" none none "" "t").map (fun r => r.1.1) = some true :=
  ((create_voice_spec cfgA "bobby" none none "" "t" defaultProfile (by decide)).2
    (by decide)).1

/-- C6: `clone_voice` fails with `AlreadyExists` exactly when the name is
present AND differs from the literal `default` (so cloning may overwrite the
`default` profile even while it exists); on success the stored profile has
`cloned = true`, a durable reference to the copied sample under
`voice_library/<name>/reference_audio.wav`, and settings seeded from the
default profile's settings. -/
theorem clone_voice_spec (cfg : Config) (name path ref desc now : String) :
    (((dictGet cfg.voices name).isSome ∧ name ≠ DEFAULT_VOICE_NAME) →
       clone_voice cfg name path ref desc now =
         ((false, "Голос с таким названием уже существует"), cfg)) ∧
    (∀ d, dictGet cfg.voices DEFAULT_VOICE_NAME = some d →
       ¬((dictGet cfg.voices name).isSome ∧ name ≠ DEFAULT_VOICE_NAME) →
       (clone_voice cfg name path ref desc now).1.1 = true ∧
       (dictGet (clone_voice cfg name path ref desc now).2.voices name).map
         VoiceProfile.cloned = some true ∧
       (dictGet (clone_voice cfg name path ref desc now).2.voices name).map
         VoiceProfile.clonedFrom =
         some (some (VOICE_LIBRARY_DIR ++ "/" ++ name ++ "/reference_audio.wav")) ∧
       (dictGet (clone_voice cfg name path ref desc now).2.voices name).map
         VoiceProfile.settings = some d.settings) := by
  constructor
  · intro hg
    simp [clone_voice, clone_voice_save, hg]
  · intro d hd hg
    refine ⟨?_, ?_, ?_, ?_⟩ <;> simp [clone_voice, clone_voice_save, hg, hd, dictGet_set]

/-- C6 witness: cloning over the existing name `default` succeeds. -/
theorem clone_voice_spec_witness :
    (clone_voice cfgA "default" "a.ogg" "" "" "t").1.1 = true :=
  ((clone_voice_spec cfgA "default" "a.ogg" "" "" "t").2 defaultProfile
    (by decide) (by decide)).1

/-- C3: in the numeric-edit step (`adjusting_param` holding a numeric
parameter and a target voice), unparsable input (`float` raises) and
out-of-range values leave the session, the registry and the issued-calls log
unchanged — `update_voice_settings` is never invoked and the step stays in
place with the same target — while an in-range value invokes
`update_voice_settings` exactly once, clears the step, and sets the voice's
chosen setting to that value. -/
theorem numeric_edit_guard (cfg : Config) (ud : UserData) (ev : Msg) (now : String)
    (ptype voice : String)
    (hadj : ud.adjusting_param = some (ptype, voice))
    (hnum : ptype = "speed" ∨ ptype = "pitch" ∨ ptype = "volume") :
    (ev.asFloat = none →
      handle_text_input cfg ud ev now =
        ⟨ud, cfg, ["❌ Введите корректное число!"], [], false⟩) ∧
    (∀ v, ev.asFloat = some v → (v < paramLo ptype ∨ 2 < v) →
      (handle_text_input cfg ud ev now).ud = ud ∧
      (handle_text_input cfg ud ev now).cfg = cfg ∧
      (handle_text_input cfg ud ev now).regCalls = []) ∧
    (∀ v, ev.asFloat = some v → paramLo ptype ≤ v → v ≤ 2 →
      (handle_text_input cfg ud ev now).ud = { ud with adjusting_param := none } ∧
      (handle_text_input cfg ud ev now).regCalls =
        [RegCall.updateSettings voice (numericPartial ptype v)] ∧
      (∀ prof, dictGet cfg.voices voice = some prof →
        dictGet (handle_text_input cfg ud ev now).cfg.voices voice =
          some ({ prof with settings := mergeSettings prof.settings (numericPartial ptype v) }) ∧
        settingOf ptype (mergeSettings prof.settings (numericPartial ptype v)) = v)) := by
  rcases hnum with h | h | h <;> subst h
  · refine ⟨?_, ?_, ?_⟩
    · intro hf
      simp [handle_text_input, hadj, adjustingParamBranch, hf]
    · intro v hf hout
      rw [show paramLo "speed" = half from rfl] at hout
      refine ⟨?_, ?_, ?_⟩ <;>
        simp [handle_text_input, hadj, adjustingParamBranch, hf, hout]
    · intro v hf hlo hhi
      rw [show paramLo "speed" = half from rfl] at hlo
      have hlo2 : ¬(v < half) := not_lt.mpr hlo
      have hhi2 : ¬(2 < v) := not_lt.mpr hhi
      refine ⟨?_, ?_, ?_⟩
      · simp [handle_text_input, hadj, adjustingParamBranch, hf, hlo2, hhi2]
      · simp [handle_text_input, hadj, adjustingParamBranch, hf, hlo2, hhi2]
      · intro prof hprof
        refine ⟨?_, ?_⟩
        · simp [handle_text_input, hadj, adjustingParamBranch, hf, hlo2, hhi2,
            update_voice_settings, hprof, dictGet_set]
        · simp [settingOf, mergeSettings, numericPartial]
  · refine ⟨?_, ?_, ?_⟩
    · intro hf
      simp [handle_text_input, hadj, adjustingParamBranch, hf]
    · intro v hf hout
      rw [show paramLo "pitch" = half from rfl] at hout
      refine ⟨?_, ?_, ?_⟩ <;>
        simp [handle_text_input, hadj, adjustingParamBranch, hf, hout]
    · intro v hf hlo hhi
      rw [show paramLo "pitch" = half from rfl] at hlo
      have hlo2 : ¬(v < half) := not_lt.mpr hlo
      have hhi2 : ¬(2 < v) := not_lt.mpr hhi
      refine ⟨?_, ?_, ?_⟩
      · simp [handle_text_input, hadj, adjustingParamBranch, hf, hlo2, hhi2]
      · simp [handle_text_input, hadj, adjustingParamBranch, hf, hlo2, hhi2]
      · intro prof hprof
        refine ⟨?_, ?_⟩
        · simp [handle_text_input, hadj, adjustingParamBranch, hf, hlo2, hhi2,
            update_voice_settings, hprof, dictGet_set]
        · simp [settingOf, mergeSettings, numericPartial]
  · refine ⟨?_, ?_, ?_⟩
    · intro hf
      simp [handle_text_input, hadj, adjustingParamBranch, hf]
    · intro v hf hout
      rw [show paramLo "volume" = tenth from rfl] at hout
      refine ⟨?_, ?_, ?_⟩ <;>
        simp [handle_text_input, hadj, adjustingParamBranch, hf, hout]
    · intro v hf hlo hhi
      rw [show paramLo "volume" = tenth from rfl] at hlo
      have hlo2 : ¬(v < tenth) := not_lt.mpr hlo
      have hhi2 : ¬(2 < v) := not_lt.mpr hhi
      refine ⟨?_, ?_, ?_⟩
      · simp [handle_text_input, hadj, adjustingParamBranch, hf, hlo2, hhi2]
      · simp [handle_text_input, hadj, adjustingParamBranch, hf, hlo2, hhi2]
      · intro prof hprof
        refine ⟨?_, ?_⟩
        · simp [handle_text_input, hadj, adjustingParamBranch, hf, hlo2, hhi2,
            update_voice_settings, hprof, dictGet_set]
        · simp [settingOf, mergeSettings, numericPartial]

/-- C3 witness: the in-range edit `speed := 1` on `alice` clears the step. -/
theorem numeric_edit_guard_witness :
    (handle_text_input cfgA udAdj msgOne "t").ud = { udAdj with adjusting_param := none } :=
  ((numeric_edit_guard cfgA udAdj msgOne "t" "speed" "alice" rfl (Or.inl rfl)).2.2 1
    (by decide) (by decide) (by decide)).1

/-- C7 counterexample: in the description-EDIT step, the recognized skip
token `-` is stored literally as the new description instead of substituting
a generated default, so not every description-entry step substitutes skip
tokens. -/
theorem description_skip_edit_cex :
    (dictGet (handle_text_input cfgA udEdit msgDash "t").cfg.voices "alice").map
      VoiceProfile.description = some "-" ∧
    ("-" : String) ≠ "Пользовательский голос: alice" ∧
    ("-" : String) ≠ "Клонированный голос: alice" := by
  decide

/-- C7 (amended): skip tokens (`skip`, `-`, `пропустить`) substitute the
generated defaults "Пользовательский голос: name" / "Клонированный голос:
name" only in the CREATE and CLONE description steps (which apply no length
cap); the 200-character cap with re-prompt (no profile change, same state)
applies only in the description-EDIT step, where skip tokens are stored
literally. -/
theorem description_steps_spec (cfg : Config) (ud : UserData) (ev : Msg)
    (n now : String) (d : VoiceProfile)
    (h1 : ud.adjusting_param = none) (h2 : ud.editing_description = none)
    (h3 : ud.awaiting_voice_name = false) (h4 : ud.awaiting_voice_description = true)
    (h5 : ud.new_voice_name = some n)
    (hskip : skipTokens.contains (pyLower (pyStrip ev.text)) = true)
    (hfresh : dictGet cfg.voices n = none)
    (hd : dictGet cfg.voices DEFAULT_VOICE_NAME = some d) :
    ((dictGet (handle_text_input cfg ud ev now).cfg.voices n).map VoiceProfile.description =
       some ("Пользовательский голос: " ++ n) ∧
     (handle_text_input cfg ud ev now).ud.awaiting_voice_description = false) ∧
    (∀ (ud2 : UserData) (ev2 : Msg) (vn : String),
       ud2.adjusting_param = none → ud2.editing_description = some vn →
       200 < (pyStrip ev2.text).length →
       handle_text_input cfg ud2 ev2 now =
         ⟨ud2, cfg, ["❌ Описание слишком длинное! Максимум 200 символов."], [], false⟩) ∧
    (∀ (ud3 : UserData) (p tp : String),
       ud3.awaiting_voice_audio = false → ud3.awaiting_cloned_voice_name = false →
       ud3.awaiting_cloned_voice_description = true →
       ud3.cloned_voice_name = some n → ud3.voice_audio_path = some p →
       (dictGet (handle_audio cfg ud3 ev tp now).cfg.voices n).map VoiceProfile.description =
         some ("Клонированный голос: " ++ n)) := by
  have hne1 : ¬("Пользовательский голос: " ++ n) = "" :=
    append_ne_empty_left _ _ (by decide)
  have hne2 : ¬("Клонированный голос: " ++ n) = "" :=
    append_ne_empty_left _ _ (by decide)
  have hmem : pyLower (pyStrip ev.text) ∈ skipTokens := by
    simpa using hskip
  refine ⟨⟨?_, ?_⟩, ?_, ?_⟩
  · simp [handle_text_input, h1, h2, h3, h4, h5, hmem, create_voice, hfresh, hd,
      dictGet_set, hne1]
  · simp [handle_text_input, h1, h2, h3, h4, h5, hmem, create_voice, hfresh, hd]
  · intro ud2 ev2 vn g1 g2 glen
    simp [handle_text_input, g1, g2, editingDescriptionBranch, glen]
  · intro ud3 p tp g1 g2 g3 g4 g5
    simp [handle_audio, g1, g2, g3, g4, g5, hmem, clone_voice, clone_voice_save,
      hfresh, hd, dictGet_set, hne2]

/-- C7 witness: the spec scenario — in the creation flow for the valid fresh
name `abc`, submitting `-` creates the profile with the generated description
"Пользовательский голос: abc". -/
theorem description_steps_spec_witness :
    (dictGet (handle_text_input cfgA udDesc msgDash "t").cfg.voices "abc").map
      VoiceProfile.description = some ("Пользовательский голос: " ++ "abc") :=
  (description_steps_spec cfgA udDesc msgDash "abc" "t" defaultProfile rfl rfl rfl rfl rfl
    (by decide) (by decide) (by decide)).1.1

end TgTts
